import Mathlib

/-!
Verification development for the smart-contract-verifier / verification services.

It embeds, as Lean definitions:
  * the `vyper::multi_part` module (request types, the `From<MultiFileContent> for
    CompilerInput` conversion, and the `verify` entry point), with `BTreeMap`
    modelled as a sorted association list;
  * the `verification` service settings module (`Settings`, its manual
    `PartialEq`, `Settings::validate`, and all the `Default` impls), with the
    cron `Schedule` modelled as a seven-field cron expression.
Parts of the crate that the sources do not contain (the `verifier` module, the
vyper `Client`, the middleware trait, `consts.rs`) are modelled from the spec
and marked as such in their doc comments.
-/

namespace Blockscout

/-- Model of `std::collections::BTreeMap` as an association list sorted by key:
`insert` places an entry before the first strictly greater key and replaces an
equal key's value, which is exactly the abstract behaviour of the B-tree map. -/
abbrev Bmap (κ α : Type) := List (κ × α)

namespace Bmap

variable {κ α β : Type} [LinearOrder κ]

/-- Ordered insert: the single mutation primitive of the `BTreeMap` model. -/
def insert (k : κ) (v : α) : Bmap κ α → Bmap κ α
  | [] => [(k, v)]
  | (k', v') :: rest =>
    if k < k' then (k, v) :: (k', v') :: rest
    else if k = k' then (k, v) :: rest
    else (k', v') :: insert k v rest

/-- Building a `BTreeMap` by inserting a sequence of key/value pairs in order,
as `FromIterator` does. -/
def ofList (l : List (κ × α)) : Bmap κ α :=
  l.foldl (fun m kv => insert kv.1 kv.2 m) []

/-- Key lookup in the map. -/
def find (k : κ) : Bmap κ α → Option α
  | [] => none
  | (k', v') :: rest => if k = k' then some v' else find k rest

/-- Mapping a function over the values of a map, keeping the keys: the shape of
`map.into_iter().map(|(k, v)| (k, f(v))).collect()` on a `BTreeMap`, whose
iteration is already in key order. -/
def mapVals (f : α → β) (m : Bmap κ α) : Bmap κ β :=
  m.map (fun kv => (kv.1, f kv.2))

theorem keys_mapVals (f : α → β) (m : Bmap κ α) :
    (mapVals f m).map Prod.fst = m.map Prod.fst := by
  induction m with
  | nil => rfl
  | cons hd tl ih => simp [mapVals]

theorem find_mapVals (f : α → β) (m : Bmap κ α) (k : κ) :
    find k (mapVals f m) = (find k m).map f := by
  induction m with
  | nil => rfl
  | cons hd tl ih =>
    obtain ⟨k', v'⟩ := hd
    by_cases h : k = k' <;> simp [mapVals, find, h] <;> simpa [mapVals] using ih

theorem insert_insert_of_lt {k₁ k₂ : κ} (v₁ v₂ : α) (hlt : k₁ < k₂) (m : Bmap κ α) :
    insert k₂ v₂ (insert k₁ v₁ m) = insert k₁ v₁ (insert k₂ v₂ m) := by
  induction m with
  | nil =>
    simp [insert, hlt, lt_asymm hlt, hlt.ne, hlt.ne']
  | cons hd tl ih =>
    obtain ⟨k', v'⟩ := hd
    rcases lt_trichotomy k₂ k' with h₂ | h₂ | h₂
    · have h₁ : k₁ < k' := hlt.trans h₂
      simp [insert, h₁, h₂, hlt, lt_asymm hlt, hlt.ne, hlt.ne']
    · subst h₂
      simp [insert, hlt, lt_asymm hlt, hlt.ne, hlt.ne', lt_irrefl]
    · rcases lt_trichotomy k₁ k' with h₁ | h₁ | h₁
      · simp [insert, h₁, h₂, lt_asymm h₂, h₂.ne', hlt, lt_asymm hlt, hlt.ne, hlt.ne']
      · subst h₁
        simp [insert, h₂, lt_asymm h₂, h₂.ne', hlt, lt_asymm hlt, hlt.ne, hlt.ne',
          lt_irrefl]
      · simp [insert, h₁, lt_asymm h₁, h₁.ne', h₂, lt_asymm h₂, h₂.ne', ih]

theorem insert_comm (k₁ k₂ : κ) (v₁ v₂ : α) (hne : k₁ ≠ k₂) (m : Bmap κ α) :
    insert k₂ v₂ (insert k₁ v₁ m) = insert k₁ v₁ (insert k₂ v₂ m) := by
  rcases hne.lt_or_lt with h | h
  · exact insert_insert_of_lt v₁ v₂ h m
  · exact (insert_insert_of_lt v₂ v₁ h m).symm

/-- Insertion-order independence of the map model: building from any
permutation of a duplicate-free list of entries yields the same map. -/
theorem ofList_perm {l₁ l₂ : List (κ × α)} (hp : l₁.Perm l₂)
    (hnd : (l₁.map Prod.fst).Nodup) :
    ofList l₁ = ofList l₂ := by
  unfold ofList
  refine hp.foldl_eq' ?_ []
  intro x hx y hy z
  by_cases hxy : x = y
  · subst hxy; rfl
  · have hk : x.1 ≠ y.1 := by
      intro h
      exact hxy (List.inj_on_of_nodup_map hnd hx hy h)
    exact insert_comm x.1 y.1 x.2 y.2 hk z

end Bmap

namespace EthersSolc

/-- Model of `ethers_solc::EvmVersion` (only the variants matter, not their
serialisation); `default` is the crate's default target. -/
inductive EvmVersion
  | homestead
  | tangerineWhistle
  | spuriousDragon
  | byzantium
  | constantinople
  | petersburg
  | istanbul
  | berlin
  | london
deriving DecidableEq

def EvmVersion.default : EvmVersion := .london

/-- Model of `ethers_solc::artifacts::Optimizer` (the fields read or written by
the sources). -/
structure Optimizer where
  enabled : Option Bool
  runs : Option Nat
deriving DecidableEq

def Optimizer.default : Optimizer := ⟨some false, some 200⟩

/-- Model of `ethers_solc::artifacts::Settings` restricted to the fields the
vyper `multi_part` module reads or writes: the optimizer block and the target
EVM version. -/
structure Settings where
  optimizer : Optimizer
  evm_version : Option EvmVersion
deriving DecidableEq

def Settings.default : Settings := ⟨Optimizer.default, some EvmVersion.default⟩

/-- Model of `ethers_solc::artifacts::Source`: a single source file's text. -/
structure Source where
  content : String
deriving DecidableEq

def Source.new (content : String) : Source := ⟨content⟩

/-- Paths are modelled as their string representation, ordered like
`std::path::PathBuf`'s `Ord`. -/
abbrev PathBuf := String

/-- Model of `ethers_solc::artifacts::Sources = BTreeMap<PathBuf, Source>`. -/
abbrev Sources := Bmap PathBuf Source

/-- Model of `ethers_solc::CompilerInput`. -/
structure CompilerInput where
  language : String
  sources : Sources
  settings : Settings
deriving DecidableEq

end EthersSolc

namespace Vyper

open EthersSolc

/-- Byte strings (`bytes::Bytes`) as lists of byte values. -/
abbrev Bytes := List Nat

/-- Model of `compiler::Version`: an opaque compiler-version identifier (the
`Version` type itself is not among the sources; per the spec it is an opaque,
totally ordered identifier, and only its identity matters here). -/
abbrev Version := String

/-- Embedding of `vyper::multi_part::MultiFileContent`. -/
structure MultiFileContent where
  sources : Bmap PathBuf String
  evm_version : Option EvmVersion
deriving DecidableEq

/-- Embedding of `impl From<MultiFileContent> for CompilerInput` in
`vyper/multi_part.rs`: start from the default settings, unset the optimizer's
`enabled` and `runs`, carry the EVM version through, wrap every source text in
`Source::new` keeping its path, and fix the language to "Vyper". -/
def MultiFileContent.toCompilerInput (content : MultiFileContent) : CompilerInput :=
  let settings : Settings :=
    { Settings.default with
        optimizer := { Settings.default.optimizer with enabled := none, runs := none },
        evm_version := content.evm_version }
  { language := "Vyper",
    sources := Bmap.mapVals Source.new content.sources,
    settings := settings }

/-- Embedding of `vyper::multi_part::VerificationRequest`. -/
structure VerificationRequest where
  deployed_bytecode : Bytes
  creation_bytecode : Option Bytes
  compiler_version : Version
  content : MultiFileContent
  chain_id : Option String
deriving DecidableEq

/-- Modelled from the spec: an opaque handle to the compiler manager
(`Compilers` is not among the sources). -/
structure Compilers where
  tag : String
deriving DecidableEq

/-- Modelled from the spec: an opaque handle to the configured middleware
callback (§4.6); its invocations are recorded in the trace returned by
`verify`. -/
structure Middleware where
  tag : String
deriving DecidableEq

/-- Modelled from the spec: the vyper `Client` facade — a compiler manager plus
an optional middleware (`vyper::client::Client` is not among the sources). -/
structure Client where
  compilers : Compilers
  middleware : Option Middleware

/-- Model of the match grade {Full, Partial} of the spec's `MatchResult`
(`partialMatch` stands for the `Partial` variant, whose literal name is a Lean
keyword). -/
inductive MatchType
  | full
  | partialMatch
deriving DecidableEq

/-- Modelled from the spec: `verifier::Success` — chosen contract's bytecode,
ABI, compiler version, match grade and constructor-argument remainder (§3). -/
structure Success where
  bytecode : Bytes
  abi : String
  compiler_version : Version
  match_type : MatchType
  constructor_args : Option Bytes
deriving DecidableEq

/-- Modelled from the spec: the error taxonomy of §7 (`verifier::Error` is not
among the sources), each kind carrying a human-readable message. -/
inductive Error
  | versionNotFound (msg : String)
  | fetchUnavailable (msg : String)
  | corruptArtifact (msg : String)
  | compilationFailed (msg : String)
  | noMatchingContracts (msg : String)
  | invalidRequest (msg : String)
deriving DecidableEq

/-- Modelled from the spec: the inputs of the verification engine that drive
matching. Per §4.5 `chain_id` "is carried only for observability and never
affects matching logic", so it is kept outside this core. -/
structure VerifierCore where
  compilers : Compilers
  compiler_version : Version
  creation_bytecode : Option Bytes
  deployed_bytecode : Bytes
deriving DecidableEq

/-- Modelled from the spec: `verifier::ContractVerifier` — the matching core
plus the observability-only `chain_id`. -/
structure ContractVerifier where
  core : VerifierCore
  chain_id : Option String
deriving DecidableEq

/-- Modelled from the spec: `ContractVerifier::new` "validates that
`requested_version` is syntactically valid and that `deployed_bytecode` is
non-empty" (§4.5), returning an `InvalidRequest` error otherwise;
`versionValid` is the abstract syntactic-validity check on versions. -/
def ContractVerifier.new (versionValid : Version → Bool) (compilers : Compilers)
    (version : Version) (creation_bytecode : Option Bytes) (deployed_bytecode : Bytes)
    (chain_id : Option String) : Except Error ContractVerifier :=
  if deployed_bytecode = [] then
    .error (.invalidRequest "deployed bytecode is empty")
  else if versionValid version = false then
    .error (.invalidRequest "invalid compiler version")
  else
    .ok ⟨⟨compilers, version, creation_bytecode, deployed_bytecode⟩, chain_id⟩

/-- Embedding of `vyper::multi_part::verify`. The compiler run and bytecode
matching performed by `verifier.verify` are not among the sources and are
abstracted as `runVerify`, a function of the verifier's matching core and the
compiler input (modelled from the spec, §4.5). The second component of the
result is the trace of middleware invocations: the list of `Success` values
passed to `middleware.call` (the Rust caller discards the call's outcome). -/
def verify (versionValid : Version → Bool)
    (runVerify : VerifierCore → CompilerInput → Except Error Success)
    (client : Client) (request : VerificationRequest) :
    Except Error Success × List Success :=
  let compiler_input := MultiFileContent.toCompilerInput request.content
  match ContractVerifier.new versionValid client.compilers request.compiler_version
      request.creation_bytecode request.deployed_bytecode request.chain_id with
  | .error e => (.error e, [])
  | .ok verifier =>
    match runVerify verifier.core compiler_input with
    | .error e => (.error e, [])
    | .ok success =>
      match client.middleware with
      | some _middleware => (.ok success, [success])
      | none => (.ok success, [])

/-- Sample validity check accepting every version (a concrete instantiation of
the abstract syntactic-validity check). -/
def vvAll : Version → Bool := fun _ => true

/-- Sample verification success value. -/
def sampleSuccess : Success := ⟨[0], "[]", "v0.3.7", .full, none⟩

/-- Sample verification engine that always succeeds with `sampleSuccess`. -/
def runOk : VerifierCore → CompilerInput → Except Error Success :=
  fun _ _ => .ok sampleSuccess

/-- Sample verification engine that always fails to compile. -/
def runErr : VerifierCore → CompilerInput → Except Error Success :=
  fun _ _ => .error (.compilationFailed "diagnostics")

/-- Sample client with a configured middleware. -/
def mwClient : Client := ⟨⟨"compilers"⟩, some ⟨"mw"⟩⟩

/-- Sample multi-file content with a single source. -/
def sampleContent : MultiFileContent := ⟨[("a.vy", "x")], none⟩

/-- Sample verification request. -/
def sampleRequest : VerificationRequest := ⟨[0, 1], none, "v0.3.7", sampleContent, some "1"⟩

/-- The same request as `sampleRequest` but without a chain id. -/
def sampleRequestNoChain : VerificationRequest :=
  ⟨[0, 1], none, "v0.3.7", sampleContent, none⟩

end Vyper

namespace Verification

/-- URLs are modelled by their string representation. -/
abbrev Url := String

/-- Socket addresses are modelled by their string representation. -/
abbrev SocketAddr := String

/-- Paths are modelled by their string representation. -/
abbrev PathBuf := String

/-- Model of one field of a `cron::Schedule` expression: either the wildcard
`*` or a single numeric value (the only field shapes the sources use). -/
inductive CronField
  | all
  | value (n : Nat)
deriving DecidableEq

/-- Model of `cron::Schedule`: the crate's seven-field expression
`sec min hour day-of-month month day-of-week year`. -/
structure Schedule where
  sec : CronField
  min : CronField
  hour : CronField
  day_of_month : CronField
  month : CronField
  day_of_week : CronField
  year : CronField
deriving DecidableEq

/-- Splits a character list on spaces (the tokenizer of the cron-expression
model). -/
def splitSpacesAux : List Char → List Char → List (List Char)
  | [], acc => [acc.reverse]
  | c :: rest, acc =>
    if c = ' ' then acc.reverse :: splitSpacesAux rest []
    else splitSpacesAux rest (c :: acc)

def splitSpaces (l : List Char) : List (List Char) :=
  splitSpacesAux l []

def digitVal (c : Char) : Option Nat :=
  if ('0' ≤ c && c ≤ '9') = true then some (c.toNat - Char.toNat '0') else none

def natOfCharsAux : List Char → Nat → Option Nat
  | [], acc => some acc
  | c :: rest, acc =>
    match digitVal c with
    | some d => natOfCharsAux rest (acc * 10 + d)
    | none => none

def natOfChars : List Char → Option Nat
  | [] => none
  | l => natOfCharsAux l 0

def parseCronField (s : List Char) : Option CronField :=
  if s = ['*'] then some .all else (natOfChars s).map .value

/-- Model of `cron::Schedule::from_str`: split the expression on spaces and
parse the seven fields. -/
def Schedule.from_str (s : String) : Option Schedule :=
  match (splitSpaces s.data).mapM parseCronField with
  | some [sec, min, hour, dom, month, dow, year] =>
    some ⟨sec, min, hour, dom, month, dow, year⟩
  | _ => none

/-- A point in time as the seven cron-relevant components. -/
structure CronTime where
  sec : Nat
  min : Nat
  hour : Nat
  day_of_month : Nat
  month : Nat
  day_of_week : Nat
  year : Nat
deriving DecidableEq

def CronField.matches : CronField → Nat → Bool
  | .all, _ => true
  | .value n, m => n == m

/-- Model of `cron::Schedule::includes`: the schedule fires at a time exactly
when every field matches the corresponding component. -/
def Schedule.includes (s : Schedule) (t : CronTime) : Bool :=
  s.sec.matches t.sec && s.min.matches t.min && s.hour.matches t.hour
    && s.day_of_month.matches t.day_of_month && s.month.matches t.month
    && s.day_of_week.matches t.day_of_week && s.year.matches t.year

/-- Embedding of `ServerSettings` from `verification/src/settings.rs`. -/
structure ServerSettings where
  addr : SocketAddr
deriving DecidableEq

def ServerSettings.default : ServerSettings := ⟨"0.0.0.0:8043"⟩

/-- Modelled from the spec: `DEFAULT_COMPILER_LIST` lives in `consts.rs`, which
is not among the sources; the spec describes it only as the built-in default
compiler-list URL, so its concrete value is opaque here. -/
def DEFAULT_COMPILER_LIST : Url := "https://solc-bin.ethereum.org/linux-amd64/list.json"

/-- Embedding of `ListFetcherSettings`. -/
structure ListFetcherSettings where
  list_url : Url
deriving DecidableEq

def ListFetcherSettings.default : ListFetcherSettings := ⟨DEFAULT_COMPILER_LIST⟩

/-- Embedding of `S3FetcherSettings`. -/
structure S3FetcherSettings where
  access_key : Option String
  secret_key : Option String
  region : Option String
  endpoint : Option String
  bucket : String
deriving DecidableEq

def S3FetcherSettings.default : S3FetcherSettings := ⟨none, none, none, none, ""⟩

/-- Embedding of the `FetcherSettings` discriminated union. -/
inductive FetcherSettings
  | List (s : ListFetcherSettings)
  | S3 (s : S3FetcherSettings)
deriving DecidableEq

def FetcherSettings.default : FetcherSettings := .List ListFetcherSettings.default

/-- Embedding of `SoliditySettings`. -/
structure SoliditySettings where
  enabled : Bool
  compilers_dir : PathBuf
  refresh_versions_schedule : Schedule
  fetcher : FetcherSettings
deriving DecidableEq

/-- Embedding of `impl Default for SoliditySettings`: enabled, compilers under
the system temporary directory (modelled as "/tmp"), the hourly cron
expression "0 0 * * * * *" (the Rust code unwraps the parse; `getD` plays the
role of the unwrap and the fallback is proven unreachable), and the default
fetcher. -/
def SoliditySettings.default : SoliditySettings :=
  ⟨true, "/tmp/compilers",
    (Schedule.from_str "0 0 * * * * *").getD ⟨.all, .all, .all, .all, .all, .all, .all⟩,
    FetcherSettings.default⟩

/-- Embedding of `SourcifySettings` (`verification_attempts` is `NonZeroUsize`
in the source; its numeric value is what matters here). -/
structure SourcifySettings where
  enabled : Bool
  api_url : Url
  verification_attempts : Nat
  request_timeout : Nat
deriving DecidableEq

def SourcifySettings.default : SourcifySettings :=
  ⟨true, "https://sourcify.dev/server/", 3, 10⟩

/-- Embedding of `MetricsSettings`. -/
structure MetricsSettings where
  endpoint : String
  addr : SocketAddr
deriving DecidableEq

def MetricsSettings.default : MetricsSettings := ⟨"/metrics", "0.0.0.0:6060"⟩

/-- Model of `serde::de::IgnoredAny`: a unit struct carrying no data (the
`config` key is accepted and discarded during deserialization). -/
inductive IgnoredAny
  | mk
deriving DecidableEq

/-- Embedding of `Settings` from `verification/src/settings.rs`. -/
structure Settings where
  server : ServerSettings
  solidity : SoliditySettings
  sourcify : SourcifySettings
  metrics : MetricsSettings
  config_path : IgnoredAny
deriving DecidableEq

def Settings.default : Settings :=
  ⟨ServerSettings.default, SoliditySettings.default, SourcifySettings.default,
    MetricsSettings.default, IgnoredAny.mk⟩

/-- Embedding of the manual `impl PartialEq for Settings`: it compares the
`server`, `solidity`, `sourcify` and `metrics` fields and never reads
`config_path`. -/
def Settings.eq (a b : Settings) : Bool :=
  decide (a.server = b.server) && decide (a.solidity = b.solidity)
    && decide (a.sourcify = b.sourcify) && decide (a.metrics = b.metrics)

/-- Embedding of `Settings::validate`: the S3 fetcher requires at least one of
`region` or `endpoint`; every other configuration passes. -/
def Settings.validate (s : Settings) : Except String Unit :=
  match s.solidity.fetcher with
  | .S3 settings =>
    if settings.region.isNone && settings.endpoint.isNone then
      .error "for s3 fetcher settings at least one of `region` or `endpoint` should be defined"
    else
      .ok ()
  | .List _ => .ok ()

/-- Sample settings whose S3 fetcher has neither `region` nor `endpoint`. -/
def s3SettingsNone : Settings :=
  ⟨ServerSettings.default,
    ⟨true, "/tmp/compilers", SoliditySettings.default.refresh_versions_schedule,
      FetcherSettings.S3 ⟨none, none, none, none, "bucket"⟩⟩,
    SourcifySettings.default, MetricsSettings.default, IgnoredAny.mk⟩

/-- Sample settings whose S3 fetcher has a `region` but no `endpoint`. -/
def s3SettingsRegion : Settings :=
  ⟨ServerSettings.default,
    ⟨true, "/tmp/compilers", SoliditySettings.default.refresh_versions_schedule,
      FetcherSettings.S3 ⟨none, none, some "us-east-1", none, "bucket"⟩⟩,
    SourcifySettings.default, MetricsSettings.default, IgnoredAny.mk⟩

end Verification

/-! Theorems settling the claims, one per claim, with witnesses where the
statement carries hypotheses. -/

namespace Verification

/-- C1: for every `Settings` whose solidity fetcher is the S3 variant,
`Settings.validate` returns an error exactly when both `region` and `endpoint`
are `None` — and the error carries the descriptive message of the source — and
returns `Ok` as soon as at least one of the two is `Some`. -/
theorem c1_s3_validate (s : Settings) (cfg : S3FetcherSettings)
    (h : s.solidity.fetcher = FetcherSettings.S3 cfg) :
    (s.validate = Except.error
        "for s3 fetcher settings at least one of `region` or `endpoint` should be defined"
      ↔ (cfg.region = none ∧ cfg.endpoint = none)) ∧
    (s.validate = Except.ok () ↔ (cfg.region ≠ none ∨ cfg.endpoint ≠ none)) := by
  cases hr : cfg.region <;> cases he : cfg.endpoint <;>
    simp [Settings.validate, h, hr, he]

/-- Witness for C1 at concrete settings: validation fails with the descriptive
message when both `region` and `endpoint` are unset, and passes with `region`
alone. -/
theorem c1_s3_validate_witness :
    s3SettingsNone.validate = Except.error
      "for s3 fetcher settings at least one of `region` or `endpoint` should be defined"
      ∧ s3SettingsRegion.validate = Except.ok () :=
  ⟨((c1_s3_validate s3SettingsNone ⟨none, none, none, none, "bucket"⟩ rfl).1).mpr
      ⟨rfl, rfl⟩,
    ((c1_s3_validate s3SettingsRegion ⟨none, none, some "us-east-1", none, "bucket"⟩
      rfl).2).mpr (Or.inl (by simp))⟩

/-- C7: the default solidity settings parse the cron expression
"0 0 * * * * *" as their refresh schedule, and that schedule fires at a time
exactly when its second and minute components are zero — i.e. exactly once per
hour, at minute 0, second 0 of every hour. -/
theorem c7_default_schedule_hourly (t : CronTime) :
    Schedule.from_str "0 0 * * * * *"
        = some SoliditySettings.default.refresh_versions_schedule ∧
    (SoliditySettings.default.refresh_versions_schedule.includes t = true ↔
      (t.sec = 0 ∧ t.min = 0)) := by
  refine ⟨rfl, ?_⟩
  have h : SoliditySettings.default.refresh_versions_schedule
      = ⟨.value 0, .value 0, .all, .all, .all, .all, .all⟩ := rfl
  rw [h]
  simp [Schedule.includes, CronField.matches]
  omega

/-- C8: the manual equality on `Settings` holds exactly when the `server`,
`solidity`, `sourcify` and `metrics` fields are pairwise equal, and it is
unchanged by replacing the `config_path` field of either argument. -/
theorem c8_eq_ignores_config_path (a b : Settings) (p q : IgnoredAny) :
    (Settings.eq a b = true ↔
      (a.server = b.server ∧ a.solidity = b.solidity ∧ a.sourcify = b.sourcify
        ∧ a.metrics = b.metrics)) ∧
    Settings.eq ⟨a.server, a.solidity, a.sourcify, a.metrics, q⟩
        ⟨b.server, b.solidity, b.sourcify, b.metrics, p⟩
      = Settings.eq a b := by
  constructor
  · simp [Settings.eq, and_assoc]
  · rfl

/-- C10: the default settings select the List fetcher with the built-in
default compiler-list URL, and `Settings.validate` accepts every settings
value whose solidity fetcher is the List variant — the default configuration
in particular. -/
theorem c10_default_list_fetcher (s : Settings) (ls : ListFetcherSettings)
    (h : s.solidity.fetcher = FetcherSettings.List ls) :
    Settings.default.solidity.fetcher
        = FetcherSettings.List ⟨DEFAULT_COMPILER_LIST⟩ ∧
    s.validate = Except.ok () ∧
    Settings.default.validate = Except.ok () := by
  refine ⟨rfl, ?_, rfl⟩
  simp [Settings.validate, h]

/-- Witness for C10 at the default settings themselves. -/
theorem c10_default_list_fetcher_witness :
    Settings.default.solidity.fetcher
        = FetcherSettings.List ⟨DEFAULT_COMPILER_LIST⟩ ∧
    Settings.default.validate = Except.ok () ∧
    Settings.default.validate = Except.ok () :=
  c10_default_list_fetcher Settings.default ⟨DEFAULT_COMPILER_LIST⟩ rfl

end Verification

namespace Vyper

open EthersSolc

/-- C2: every `CompilerInput` derived from a `MultiFileContent` has the
optimizer unset (`enabled = None`, `runs = None`) and carries the content's
EVM version through. -/
theorem c2_optimizer_unset (content : MultiFileContent) :
    (content.toCompilerInput).settings.optimizer.enabled = none ∧
    (content.toCompilerInput).settings.optimizer.runs = none ∧
    (content.toCompilerInput).settings.evm_version = content.evm_version :=
  ⟨rfl, rfl, rfl⟩

/-- C9: every `CompilerInput` produced by the conversion from
`MultiFileContent` has its language field equal to "Vyper". -/
theorem c9_language_vyper (content : MultiFileContent) :
    (content.toCompilerInput).language = "Vyper" := rfl

/-- C3: the conversion to `CompilerInput` keeps exactly the original path keys,
maps every path to a `Source` built from the original text, and the underlying
map — hence the whole conversion — does not depend on the order in which the
sources were inserted (any permutation of a duplicate-free entry list builds
the same map). Determinism of the conversion is immediate since it is a
function. -/
theorem c3_sources_preserved (content : MultiFileContent) (k : PathBuf)
    (ev : Option EvmVersion) (l₁ l₂ : List (PathBuf × String))
    (hp : l₁.Perm l₂) (hnd : (l₁.map Prod.fst).Nodup) :
    (content.toCompilerInput).sources.map Prod.fst = content.sources.map Prod.fst ∧
    Bmap.find k (content.toCompilerInput).sources
      = (Bmap.find k content.sources).map Source.new ∧
    MultiFileContent.toCompilerInput ⟨Bmap.ofList l₁, ev⟩
      = MultiFileContent.toCompilerInput ⟨Bmap.ofList l₂, ev⟩ := by
  refine ⟨Bmap.keys_mapVals Source.new content.sources,
    Bmap.find_mapVals Source.new content.sources k, ?_⟩
  rw [Bmap.ofList_perm hp hnd]

/-- Witness for C3 at a concrete two-file content and a concrete pair of
insertion orders. -/
theorem c3_sources_preserved_witness :
    ((sampleContent.toCompilerInput).sources.map Prod.fst
        = sampleContent.sources.map Prod.fst ∧
      Bmap.find "a.vy" (sampleContent.toCompilerInput).sources
        = (Bmap.find "a.vy" sampleContent.sources).map Source.new ∧
      MultiFileContent.toCompilerInput ⟨Bmap.ofList [("b.vy", "y"), ("a.vy", "x")], none⟩
        = MultiFileContent.toCompilerInput
            ⟨Bmap.ofList [("a.vy", "x"), ("b.vy", "y")], none⟩) :=
  c3_sources_preserved sampleContent "a.vy" none
    [("b.vy", "y"), ("a.vy", "x")] [("a.vy", "x"), ("b.vy", "y")]
    (List.Perm.swap ("a.vy", "x") ("b.vy", "y") []) (by decide)

/-- C4: in `verify`, the middleware trace contains exactly the returned
`Success` when verification succeeds and a middleware is configured, is empty
when no middleware is configured or verification fails, and the returned
result is the same as with no middleware configured — so a middleware
invocation never turns a success into an error. -/
theorem c4_middleware_once (versionValid : Version → Bool)
    (runVerify : VerifierCore → CompilerInput → Except Error Success)
    (client : Client) (request : VerificationRequest) (s : Success) (e : Error) :
    ((verify versionValid runVerify client request).1 = Except.ok s →
      (verify versionValid runVerify client request).2
        = if client.middleware.isSome then [s] else []) ∧
    ((verify versionValid runVerify client request).1 = Except.error e →
      (verify versionValid runVerify client request).2 = []) ∧
    (verify versionValid runVerify client request).1
      = (verify versionValid runVerify ⟨client.compilers, none⟩ request).1 := by
  obtain ⟨compilers, middleware⟩ := client
  cases hnew : ContractVerifier.new versionValid compilers request.compiler_version
      request.creation_bytecode request.deployed_bytecode request.chain_id with
  | error e' =>
    cases middleware <;> simp [verify, hnew]
  | ok verifier =>
    cases hrun : runVerify verifier.core
        (MultiFileContent.toCompilerInput request.content) with
    | error e' => cases middleware <;> simp [verify, hnew, hrun]
    | ok s' =>
      cases middleware <;> simp [verify, hnew, hrun]

/-- Witness for C4 at a concrete successful verification with a configured
middleware: the middleware is invoked exactly once, with the success value. -/
theorem c4_middleware_once_witness :
    (verify vvAll runOk mwClient sampleRequest).2 = [sampleSuccess] := by
  have h := (c4_middleware_once vvAll runOk mwClient sampleRequest sampleSuccess
    (Error.invalidRequest "unused")).1 rfl
  simpa using h

/-- C5: the result of `verify` is exactly the bind of `ContractVerifier::new`'s
result with the verification engine's run: an error from construction or from
the engine is returned unchanged to the caller, and — because the equation
holds for every `runVerify` — a construction failure determines the result
with no dependence on the engine, which is therefore never invoked. -/
theorem c5_error_propagation (versionValid : Version → Bool)
    (runVerify : VerifierCore → CompilerInput → Except Error Success)
    (client : Client) (request : VerificationRequest) :
    (verify versionValid runVerify client request).1
      = (ContractVerifier.new versionValid client.compilers request.compiler_version
          request.creation_bytecode request.deployed_bytecode request.chain_id).bind
        (fun verifier =>
          runVerify verifier.core (MultiFileContent.toCompilerInput request.content)) := by
  obtain ⟨compilers, middleware⟩ := client
  cases hnew : ContractVerifier.new versionValid compilers request.compiler_version
      request.creation_bytecode request.deployed_bytecode request.chain_id with
  | error e => simp [verify, hnew, Except.bind]
  | ok verifier =>
    cases hrun : runVerify verifier.core
        (MultiFileContent.toCompilerInput request.content) with
    | error e => cases middleware <;> simp [verify, hnew, hrun, Except.bind]
    | ok s => cases middleware <;> simp [verify, hnew, hrun, Except.bind]

/-- C6: two verification requests that agree on everything but `chain_id`
produce the same `verify` outcome — result and middleware trace alike;
`chain_id` never influences compilation input or matching. -/
theorem c6_chain_id_irrelevant (versionValid : Version → Bool)
    (runVerify : VerifierCore → CompilerInput → Except Error Success)
    (client : Client) (r₁ r₂ : VerificationRequest)
    (hdep : r₁.deployed_bytecode = r₂.deployed_bytecode)
    (hcre : r₁.creation_bytecode = r₂.creation_bytecode)
    (hver : r₁.compiler_version = r₂.compiler_version)
    (hcon : r₁.content = r₂.content) :
    verify versionValid runVerify client r₁ = verify versionValid runVerify client r₂ := by
  obtain ⟨d₁, c₁, v₁, ct₁, ch₁⟩ := r₁
  obtain ⟨d₂, c₂, v₂, ct₂, ch₂⟩ := r₂
  simp only at hdep hcre hver hcon
  subst hdep hcre hver hcon
  simp only [verify, ContractVerifier.new]
  split_ifs <;> rfl

/-- Witness for C6 at two concrete requests differing only in `chain_id`. -/
theorem c6_chain_id_irrelevant_witness :
    verify vvAll runOk mwClient sampleRequest
      = verify vvAll runOk mwClient sampleRequestNoChain :=
  c6_chain_id_irrelevant vvAll runOk mwClient sampleRequest sampleRequestNoChain
    rfl rfl rfl rfl

end Vyper

end Blockscout
